import Mathlib

/-!
Shallow embedding of the Notesnook sync core (`api/sync/index.ts`):
`SyncManager.start`, `Sync.fetch` / `Sync.send` / `Sync.processChunk` /
`Sync.checkConnection`, `promiseTimeout`, and `deserializeItem`.

Conventions of the embedding:
* JavaScript objects become Lean structures; field truthiness of optional
  string fields is made explicit (`truthyOpt`).
* The external `migrateItem` service (module `../../migrations`, not part of
  this repository slice) is a parameter of type
  `SItem → Nat → String → String → MigrationResult × SItem`: it receives the
  item, the stored schema version, the declared type and the context
  (`"sync"` or `"backup"`), and returns its result together with the
  (possibly mutated) item.  The target `CURRENT_DATABASE_VERSION` constant is
  captured inside the parameter.
* The external `COLORS` list (`database/backup`) is a parameter.
* Decryption (`storage().decryptMulti`) and `JSON.parse` are external; an
  encrypted transfer record carries its already-decrypted, parsed payload in
  the `payload` field.
* Network sends/invocations are recorded as messages in an output trace so
  that ordering and multiplicity properties can be stated.
-/

/-- Result of the external migration service: `"skip"`, or a boolean
"did the migration change the item". -/
inductive MigrationResult where
  | skip
  | changed
  | unchanged
deriving DecidableEq, Repr

/-- JavaScript truthiness of a migration result that is either `"skip"`
(a truthy string) or a boolean. -/
def MigrationResult.truthy : MigrationResult → Bool
  | .unchanged => false
  | _ => true

/-- A parsed synced item, restricted to the fields `deserializeItem` and
`processChunk` read: `id`, the `cipher` marker (truthiness of the field),
declared `type`, optional inner `itemType` (for trash items), `title`, and
the `remote` / `synced` flags. -/
structure SItem where
  id : String
  cipher : Bool
  type : String
  itemType : Option String
  title : String
  remote : Bool
  synced : Bool
deriving DecidableEq, Repr

/-- JavaScript truthiness of an optional string field: present and
non-empty. -/
def truthyOpt : Option String → Bool
  | some s => s ≠ ""
  | none => false

/-- The two stamps applied on entry of `deserializeItem`:
`item.remote = true; item.synced = true;`. -/
def stampRemote (item : SItem) : SItem :=
  { item with remote := true, synced := true }

/-- JavaScript `String.prototype.toLowerCase`, character by character. -/
def jsToLowerCase (s : String) : String :=
  String.mk (s.data.map Char.toLower)

/-- The resolved (routing) type computed by `deserializeItem`:
a `tag` whose lowercased title is a reserved color name becomes `"color"`;
a `trash` item with a truthy inner `itemType` resolves to that inner type;
otherwise the declared type stands. -/
def resolvedItemType (colors : List String) (item : SItem) : String :=
  if item.type = "tag" ∧
      colors.contains (jsToLowerCase item.title) = true then "color"
  else if item.type = "trash" ∧ item.itemType.isSome = true ∧
      truthyOpt item.itemType = true then
    item.itemType.getD ""
  else item.type

/-- The type of the external migration parameter. -/
def Migrate : Type :=
  SItem → Nat → String → String → MigrationResult × SItem

/-- `deserializeItem(decryptedItem, version, database)`: stamps
`remote = synced = true`; cipher items are returned as-is; plaintext items
run the main migration pass (context `"sync"`), then — for a trash item with
a truthy inner type — a second pass on the inner type (context `"backup"`);
a `skip` from either pass drops the item; items whose resolved type is
empty, `"topic"` or `"settings"` are dropped; finally a truthy migration
result clears the `synced` flag. -/
def deserializeItem (colors : List String) (migrate : Migrate)
    (decryptedItem : SItem) (version : Nat) : Option SItem :=
  let item := stampRemote decryptedItem
  if item.cipher then some item else
  let m1 := migrate item version item.type "sync"
  if m1.1 = MigrationResult.skip then none else
  let m2 :=
    if m1.2.type = "trash" ∧ truthyOpt m1.2.itemType = true then
      migrate m1.2 version (m1.2.itemType.getD "") "backup"
    else m1
  if m2.1 = MigrationResult.skip then none else
  let itemType := resolvedItemType colors m2.2
  if itemType = "" ∨ itemType = "topic" ∨ itemType = "settings" then none else
  some (if m2.1.truthy then { m2.2 with synced := false } else m2.2)

/-- `deserializeItem` instrumented with a trace of migration calls: each
call is recorded as `(declared type argument, context argument)` in call
order.  The value component coincides with `deserializeItem`
(`deserializeItemT_fst`). -/
def deserializeItemT (colors : List String) (migrate : Migrate)
    (decryptedItem : SItem) (version : Nat) :
    Option SItem × List (String × String) :=
  let item := stampRemote decryptedItem
  if item.cipher then (some item, []) else
  let m1 := migrate item version item.type "sync"
  let calls1 := [(item.type, "sync")]
  if m1.1 = MigrationResult.skip then (none, calls1) else
  if m1.2.type = "trash" ∧ truthyOpt m1.2.itemType = true then
    let m2 := migrate m1.2 version (m1.2.itemType.getD "") "backup"
    let calls2 := calls1 ++ [(m1.2.itemType.getD "", "backup")]
    if m2.1 = MigrationResult.skip then (none, calls2) else
    let itemType := resolvedItemType colors m2.2
    if itemType = "" ∨ itemType = "topic" ∨ itemType = "settings" then
      (none, calls2)
    else
      (some (if m2.1.truthy then { m2.2 with synced := false } else m2.2),
        calls2)
  else
    if m1.1 = MigrationResult.skip then (none, calls1) else
    let itemType := resolvedItemType colors m1.2
    if itemType = "" ∨ itemType = "topic" ∨ itemType = "settings" then
      (none, calls1)
    else
      (some (if m1.1.truthy then { m1.2 with synced := false } else m1.2),
        calls1)

theorem deserializeItemT_fst (colors : List String) (migrate : Migrate)
    (decryptedItem : SItem) (version : Nat) :
    (deserializeItemT colors migrate decryptedItem version).1 =
      deserializeItem colors migrate decryptedItem version := by
  simp only [deserializeItemT, deserializeItem]
  split
  · rfl
  · split
    · rfl
    · split
      · split
        · rfl
        · split <;> rfl
      · split
        · rfl
        · split <;> rfl

/-- One encrypted record of a transfer batch: its `id`, per-item schema
version tag `v`, and (decryption and JSON-parsing being external) the
already-decrypted parsed payload. -/
structure EncItem where
  id : String
  v : Nat
  payload : SItem
deriving DecidableEq, Repr

/-- `SyncTransferItem`: a batch of records of one declared type — the unit
of both fetch delivery and push submission. -/
structure SyncTransferItem where
  type : String
  items : List EncItem
deriving DecidableEq, Repr

/-- The external `Merger` collaborator: `mergeContent`,
`mergeItemAsync` and `mergeItemSync`, each taking the remote item, the
local counterpart (if any) and — for the latter two — the batch type, and
returning the item to persist (possibly none, i.e. `undefined`). -/
structure MergerOps where
  mergeContent : SItem → Option SItem → Option SItem
  mergeItemAsync : SItem → Option SItem → String → Option SItem
  mergeItemSync : SItem → Option SItem → String → Option SItem

/-- `Sync.processChunk(chunk, key)`: a `"settings"` batch returns before
any persistence (`none`); otherwise the decrypted payloads are
deserialized (dropped items filtered out), routed to the merger matching
the batch type against the local record of the same id, and the resulting
list is handed to `collection.put` (`some list`).  `locals` abstracts
`collection.records`. -/
def Sync.processChunk (colors : List String) (migrate : Migrate)
    (merger : MergerOps) (locals : String → Option SItem)
    (chunk : SyncTransferItem) : Option (List (Option SItem)) :=
  let itemType := chunk.type
  if itemType = "settings" then none else
  let deserialized :=
    chunk.items.filterMap fun e => deserializeItem colors migrate e.payload e.v
  let items :=
    if itemType = "content" then
      deserialized.map fun d => merger.mergeContent d (locals d.id)
    else if itemType = "attachment" then
      deserialized.map fun d => merger.mergeItemAsync d (locals d.id) itemType
    else
      deserialized.map fun d => merger.mergeItemSync d (locals d.id) itemType
  some items

/-- Messages the client emits on the connection during `Sync.send`:
the lazy `InitializePush`, one `PushItems` per batch, per-batch upload
`progress` events, and the final `PushCompleted`. -/
inductive SyncMsg where
  | initPush
  | pushItems (batch : SyncTransferItem)
  | progress (count : Nat)
  | pushCompleted
deriving DecidableEq, Repr

/-- The `for await … of collector.collect(…)` loop body of `Sync.send`:
on the first batch (flag not yet set) `InitializePush` is sent; each batch
is pushed (`PushItems`); a truthy server acknowledgment advances the
`done` counter and reports upload progress, a falsy one is only logged.
Returns the emitted messages and the final value of the
initialization flag. -/
def Sync.sendLoop (ack : SyncTransferItem → Bool) :
    List SyncTransferItem → Bool → Nat → List SyncMsg × Bool
  | [], isInit, _done => ([], isInit)
  | item :: rest, isInit, done =>
    let initMsgs : List SyncMsg := if isInit then [] else [SyncMsg.initPush]
    let result := ack item
    let done2 := if result then done + item.items.length else done
    let progressMsgs : List SyncMsg :=
      if result then [SyncMsg.progress done2] else []
    let next := Sync.sendLoop ack rest true done2
    (initMsgs ++ SyncMsg.pushItems item :: (progressMsgs ++ next.1), next.2)

/-- `Sync.send(deviceId, isForceSync)`: runs the collector loop starting
uninitialized with a zero counter; if the flag was never set (no batch),
returns `false` without sending `PushCompleted`; otherwise sends
`PushCompleted` and returns `true`.  `ack` abstracts the server response
to `PushItems` (`=== 1`); the batch list abstracts what
`collector.collect(100, isForceSync)` yields. -/
def Sync.send (ack : SyncTransferItem → Bool)
    (batches : List SyncTransferItem) : List SyncMsg × Bool :=
  let r := Sync.sendLoop ack batches false 0
  if r.2 then (r.1 ++ [SyncMsg.pushCompleted], true) else (r.1, false)

/-- Vault key material as delivered in the `RequestFetch` server response:
nullable `cipher` / `iv` / `salt` and a length. -/
structure VaultKey where
  cipher : Option String
  iv : Option String
  salt : Option String
  length : Nat
deriving DecidableEq, Repr

/-- The `RequestFetch` server response (only the field `Sync.fetch`
inspects). -/
structure ServerResponse where
  vaultKey : Option VaultKey
deriving DecidableEq, Repr

/-- The guard of `Sync.fetch` before `db.vault.setKey`: a truthy `vaultKey`
with non-null `cipher`, `iv`, `salt` and positive `length`. -/
def vaultKeyValid (r : ServerResponse) : Bool :=
  match r.vaultKey with
  | none => false
  | some k => k.cipher.isSome && k.iv.isSome && k.salt.isSome &&
      decide (0 < k.length)

/-- Connection operations `Sync.fetch` performs, in program order:
deregistering / registering the `SendItems` handler, the one
`RequestFetch` invocation, and installing the vault key. -/
inductive FetchOp where
  | offSendItems
  | onSendItems
  | invokeRequestFetch
  | setVaultKey
deriving DecidableEq, Repr

/-- Outcome of an operation that either completes or raises with an error
message. -/
inductive RunResult where
  | ok
  | failed (msg : String)
deriving DecidableEq, Repr

/-- Result of awaiting `connection.invoke("RequestFetch", deviceId)`. -/
inductive InvokeResult where
  | ok (resp : ServerResponse)
  | failed (msg : String)
deriving DecidableEq, Repr

/-- `Sync.fetch(deviceId)` as a trace of connection operations together
with its outcome.  `connOk` abstracts the initial `checkConnection` (which
raises before any handler operation when it fails); `keyOk` abstracts the
encryption-key guard (a missing key publishes a session-expired event and
returns without fetching); `req` is the awaited `RequestFetch` result — an
exception from it propagates immediately, skipping the trailing handler
deregistration (there is no try/finally around the invocation). -/
def Sync.fetch (connOk : Bool) (keyOk : Bool) (req : InvokeResult) :
    List FetchOp × RunResult :=
  if connOk = false then
    ([], RunResult.failed
      "Could not connect to the Sync server. Please try again.")
  else if keyOk = false then ([], RunResult.ok)
  else
    match req with
    | InvokeResult.failed e =>
      ([FetchOp.offSendItems, FetchOp.onSendItems, FetchOp.invokeRequestFetch],
        RunResult.failed e)
    | InvokeResult.ok resp =>
      if vaultKeyValid resp then
        ([FetchOp.offSendItems, FetchOp.onSendItems,
          FetchOp.invokeRequestFetch, FetchOp.setVaultKey,
          FetchOp.offSendItems], RunResult.ok)
      else
        ([FetchOp.offSendItems, FetchOp.onSendItems,
          FetchOp.invokeRequestFetch, FetchOp.offSendItems], RunResult.ok)

/-- Whether a `SendItems` handler is registered after a sequence of
handler operations (`on` registers, `off` clears). -/
def handlerActive (ops : List FetchOp) : Bool :=
  ops.foldl
    (fun acc op =>
      match op with
      | FetchOp.onSendItems => true
      | FetchOp.offSendItems => false
      | _ => acc)
    false

/-- The cumulative download counts reported by the `SendItems` handler:
after each processed chunk the counter advances by the full delivered
`chunk.items.length` (regardless of what `processChunk` kept) and is
reported via `sendSyncProgressEvent`. -/
def Sync.downloadCounts : Nat → List SyncTransferItem → List Nat
  | _, [] => []
  | count, c :: rest =>
    (count + c.items.length) ::
      Sync.downloadCounts (count + c.items.length) rest

/-- Items actually persisted for one chunk: the non-`undefined` entries of
the list `processChunk` hands to `collection.put`, or nothing when the
chunk was skipped. -/
def Sync.persistedOfChunk (colors : List String) (migrate : Migrate)
    (merger : MergerOps) (locals : String → Option SItem)
    (chunk : SyncTransferItem) : List SItem :=
  match Sync.processChunk colors migrate merger locals chunk with
  | none => []
  | some l => l.reduceOption

/-- Total number of items persisted over a run of delivered chunks. -/
def Sync.persistedTotal (colors : List String) (migrate : Migrate)
    (merger : MergerOps) (locals : String → Option SItem)
    (chunks : List SyncTransferItem) : Nat :=
  (chunks.map fun c =>
    (Sync.persistedOfChunk colors migrate merger locals c).length).sum

/-- Total number of items delivered over a run of chunks (what the final
reported download count amounts to). -/
def Sync.totalDelivered (chunks : List SyncTransferItem) : Nat :=
  (chunks.map fun c => c.items.length).sum

/-- The timeout error message built by `promiseTimeout`:
`"Sync timed out in " + ms + "ms."`. -/
def timeoutMessage (ms : Nat) : String :=
  "Sync timed out in " ++ toString ms ++ "ms."

/-- `promiseTimeout(ms, promise)`: races the given promise against a timer
of `ms` milliseconds.  The promise is abstracted as `none` (never settles)
or `some (t, r)` (settles at time `t` with outcome `r`); if it does not
settle strictly before `ms`, the race rejects with the timeout error. -/
def promiseTimeout (ms : Nat) (promise : Option (Nat × RunResult)) :
    RunResult :=
  match promise with
  | none => RunResult.failed (timeoutMessage ms)
  | some (t, r) =>
    if t < ms then r else RunResult.failed (timeoutMessage ms)

/-- SignalR `HubConnectionState`. -/
inductive HubConnectionState where
  | disconnected
  | connecting
  | connected
  | disconnecting
  | reconnecting
deriving DecidableEq, Repr

/-- The outcome of one `Sync.checkConnection` call: the result its caller
awaits, how many `connection.start()` attempts were made, and how many
half-open connections were stopped first. -/
structure ConnAttempt where
  result : RunResult
  startCalls : Nat
  stopCalls : Nat
deriving DecidableEq, Repr

/-- `Sync.checkConnection()` (body of the mutex-guarded critical section):
when already connected, a no-op; otherwise any non-disconnected connection
is stopped, then exactly one `connection.start()` is raced against a
30000 ms timeout; every failure of that race (the timeout included) is
caught, logged, and re-raised to the caller as
`"Could not connect to the Sync server. Please try again."`. -/
def Sync.checkConnection (state : HubConnectionState)
    (startPromise : Option (Nat × RunResult)) : ConnAttempt :=
  if state = HubConnectionState.connected then
    { result := RunResult.ok, startCalls := 0, stopCalls := 0 }
  else
    let stops := if state = HubConnectionState.disconnected then 0 else 1
    match promiseTimeout 30000 startPromise with
    | RunResult.ok =>
      { result := RunResult.ok, startCalls := 1, stopCalls := stops }
    | RunResult.failed _ =>
      { result := RunResult.failed
          "Could not connect to the Sync server. Please try again.",
        startCalls := 1, stopCalls := stops }

/-- Whether `sep` is a prefix of the character list. -/
def charsPrefix : List Char → List Char → Bool
  | [], _ => true
  | _ :: _, [] => false
  | a :: as, b :: bs => a == b && charsPrefix as bs

/-- The suffix of the character list after the first occurrence of `sep`,
if `sep` occurs at all. -/
def charsAfterFirst (sep : List Char) : List Char → Option (List Char)
  | [] => if sep.isEmpty then some [] else none
  | c :: cs =>
    if charsPrefix sep (c :: cs) then some ((c :: cs).drop sep.length)
    else charsAfterFirst sep cs

/-- JavaScript `String.prototype.includes`: `sub` occurs as a substring of
`s`. -/
def hasSubstr (s sub : String) : Bool :=
  (charsAfterFirst sub.data s.data).isSome

/-- The text after the first occurrence of `sub` in `s`, if any. -/
def afterFirst (sub s : String) : Option String :=
  (charsAfterFirst sub.data s.data).map fun l => String.mk l

/-- What the regex fragment `(.*)` captures: the rest of the current line
(`.` matches neither `\n`, `\r` nor the Unicode line separators). -/
def jsLineRest (s : String) : String :=
  String.mk (s.data.takeWhile fun c =>
    !(c == '\n' || c == '\r' || c == '\u2028' || c == '\u2029'))

/-- The server error text extracted in `SyncManager.start`:
`/HubException: (.*)/gm.exec(message)` — the rest of the line after the
first `"HubException: "` — falling back to the whole message when the
pattern does not match. -/
def extractHubError (msg : String) : String :=
  match afterFirst "HubException: " msg with
  | some rest => jsLineRest rest
  | none => msg

/-- Result of one `SyncManager.start` call: `ok` with the returned
boolean, or `raised` with the thrown error message. -/
inductive StartOutcome where
  | ok (result : Bool)
  | raised (msg : String)
deriving DecidableEq, Repr

/-- A `SyncManager.start` run paired with the number of
`tokenManager._refreshToken(true)` calls it performed. -/
structure StartRun where
  refreshCalls : Nat
  outcome : StartOutcome
deriving DecidableEq, Repr

/-- `SyncManager.start(options)`: a successful inner run returns `true`.
A thrown error whose message does not mention `"HubException:"` is
re-raised as-is.  Otherwise the server error text is extracted; when it
mentions `"Please confirm your email "` or `"Invalid token."` while the
user's email is actually confirmed, one forced token refresh is performed
and `false` is returned; every other hub error is re-raised wrapped in the
extracted text.  `runResult` abstracts the inner
`autoSync.start(); sync.start(options)` (`none` = no exception);
`emailConfirmed` abstracts `(await db.user.getUser())?.isEmailConfirmed`. -/
def SyncManager.start (emailConfirmed : Bool) (runResult : Option String) :
    StartRun :=
  match runResult with
  | none => { refreshCalls := 0, outcome := StartOutcome.ok true }
  | some msg =>
    if hasSubstr msg "HubException:" = true then
      let errorText := extractHubError msg
      if (hasSubstr errorText "Please confirm your email " = true ∨
          hasSubstr errorText "Invalid token." = true) ∧
          emailConfirmed = true then
        { refreshCalls := 1, outcome := StartOutcome.ok false }
      else
        { refreshCalls := 0, outcome := StartOutcome.raised errorText }
    else
      { refreshCalls := 0, outcome := StartOutcome.raised msg }

theorem sendLoop_snd_true (ack : SyncTransferItem → Bool)
    (batches : List SyncTransferItem) (done : Nat) :
    (Sync.sendLoop ack batches true done).2 = true := by
  induction batches generalizing done with
  | nil => rfl
  | cons b rest ih => simp [Sync.sendLoop, ih]

theorem initPush_not_mem_sendLoop (ack : SyncTransferItem → Bool)
    (batches : List SyncTransferItem) (done : Nat) :
    SyncMsg.initPush ∉ (Sync.sendLoop ack batches true done).1 := by
  induction batches generalizing done with
  | nil => simp [Sync.sendLoop]
  | cons b rest ih =>
    simp only [Sync.sendLoop, if_true]
    by_cases h : ack b <;> simp [h, ih]

theorem pushCompleted_not_mem_sendLoop (ack : SyncTransferItem → Bool)
    (batches : List SyncTransferItem) (isInit : Bool) (done : Nat) :
    SyncMsg.pushCompleted ∉ (Sync.sendLoop ack batches isInit done).1 := by
  induction batches generalizing isInit done with
  | nil => simp [Sync.sendLoop]
  | cons b rest ih =>
    by_cases hi : isInit <;> by_cases h : ack b <;>
      simp [Sync.sendLoop, hi, h, ih]

/-- C1: a run of `send` over the batches yielded by the Collector sends
neither `InitializePush` nor `PushCompleted` and returns `false` when no
batch is yielded; when at least one batch is yielded, `InitializePush` is
emitted exactly once, as the very first message (before the first
`PushItems`), `PushCompleted` is emitted exactly once, after everything
else, and `send` returns `true`. -/
theorem claim_C1_send_protocol (ack : SyncTransferItem → Bool)
    (batches : List SyncTransferItem) :
    (batches = [] → Sync.send ack batches = ([], false)) ∧
    (batches ≠ [] → ∃ body,
      Sync.send ack batches =
        (SyncMsg.initPush :: (body ++ [SyncMsg.pushCompleted]), true) ∧
      SyncMsg.initPush ∉ body ∧ SyncMsg.pushCompleted ∉ body ∧
      ∃ b rest, batches = b :: rest ∧
        body.head? = some (SyncMsg.pushItems b)) := by
  constructor
  · rintro rfl
    rfl
  · intro hne
    match batches with
    | [] => exact absurd rfl hne
    | b :: rest =>
      refine ⟨SyncMsg.pushItems b ::
        ((if ack b then [SyncMsg.progress (0 + b.items.length)] else []) ++
          (Sync.sendLoop ack rest true
            (if ack b then 0 + b.items.length else 0)).1), ?_, ?_, ?_,
        b, rest, rfl, rfl⟩
      · show Sync.send ack (b :: rest) = _
        simp only [Sync.send, Sync.sendLoop, if_false,
          sendLoop_snd_true, Bool.false_eq_true, if_true]
        by_cases h : ack b <;> simp [h]
      · by_cases h : ack b <;>
          simp [h, initPush_not_mem_sendLoop]
      · by_cases h : ack b <;>
          simp [h, pushCompleted_not_mem_sendLoop]

/-- A sample plaintext note payload. -/
def noteItem : SItem :=
  { id := "n1", cipher := false, type := "note", itemType := none,
    title := "hello", remote := false, synced := false }

/-- A sample one-item outgoing batch. -/
def noteBatch : SyncTransferItem :=
  { type := "note", items := [{ id := "n1", v := 5, payload := noteItem }] }

theorem claim_C1_send_protocol_witness :
    ∃ body,
      Sync.send (fun _ => true) [noteBatch] =
        (SyncMsg.initPush :: (body ++ [SyncMsg.pushCompleted]), true) ∧
      SyncMsg.initPush ∉ body ∧ SyncMsg.pushCompleted ∉ body ∧
      ∃ b rest, [noteBatch] = b :: rest ∧
        body.head? = some (SyncMsg.pushItems b) :=
  (claim_C1_send_protocol (fun _ => true) [noteBatch]).2 (by decide)

/-- C2: for a plaintext incoming item, a `skip` from the main migration
pass makes `deserializeItem` return nothing (the item is excluded from the
batch as it never reaches the merger); for a (post-main-pass) trash item
with a truthy inner type, both migration passes run — the trash wrapper
first (context `"sync"`), then the inner type (context `"backup"`) — and a
`skip` from the second pass likewise returns nothing. -/
theorem claim_C2_skip_drops (colors : List String) (migrate : Migrate)
    (item : SItem) (v : Nat) (hcipher : item.cipher = false) :
    (∀ r1 i1,
      migrate (stampRemote item) v (stampRemote item).type "sync" =
        (r1, i1) →
      r1 = MigrationResult.skip →
      deserializeItem colors migrate item v = none) ∧
    (∀ r1 i1,
      migrate (stampRemote item) v (stampRemote item).type "sync" =
        (r1, i1) →
      r1 ≠ MigrationResult.skip →
      i1.type = "trash" → truthyOpt i1.itemType = true →
      (deserializeItemT colors migrate item v).2 =
        [((stampRemote item).type, "sync"),
          (i1.itemType.getD "", "backup")] ∧
      (∀ r2 i2, migrate i1 v (i1.itemType.getD "") "backup" = (r2, i2) →
        r2 = MigrationResult.skip →
        deserializeItem colors migrate item v = none)) := by
  have hc : (stampRemote item).cipher = false := hcipher
  constructor
  · intro r1 i1 h1 hskip
    simp [deserializeItem, hc, h1, hskip]
  · intro r1 i1 h1 hne htrash htruthy
    constructor
    · simp only [deserializeItemT, hc, Bool.false_eq_true, if_false, h1,
        hne, if_neg, htrash, htruthy, and_self, if_true]
      split_ifs <;> rfl
    · intro r2 i2 h2 hskip2
      simp [deserializeItem, hc, h1, hne, htrash, htruthy, h2, hskip2]

/-- A sample trash-wrapped note item (inner type `note`). -/
def trashItem : SItem :=
  { id := "t1", cipher := false, type := "trash", itemType := some "note",
    title := "old note", remote := false, synced := false }

/-- A migration behaviour that skips in the `"backup"` (inner-type) pass
and leaves items unchanged in the `"sync"` pass. -/
def skipBackupMigrate : Migrate := fun i _ _ ctx =>
  (if ctx = "backup" then MigrationResult.skip else MigrationResult.unchanged,
    i)

theorem claim_C2_skip_drops_witness :
    (deserializeItemT [] skipBackupMigrate trashItem 5).2 =
      [("trash", "sync"), ("note", "backup")] ∧
    deserializeItem [] skipBackupMigrate trashItem 5 = none := by
  have h := (claim_C2_skip_drops [] skipBackupMigrate trashItem 5 rfl).2
    MigrationResult.unchanged (stampRemote trashItem) rfl (by decide) rfl
    (by decide)
  exact ⟨h.1, h.2 MigrationResult.skip (stampRemote trashItem) rfl rfl⟩

theorem resolvedItemType_set_synced (colors : List String) (x : SItem)
    (b : Bool) :
    resolvedItemType colors { x with synced := b } =
      resolvedItemType colors x := rfl

theorem deserializeItem_resolved_not_banned (colors : List String)
    (migrate : Migrate) (p : SItem) (v : Nat) (d : SItem)
    (hp : p.cipher = false)
    (h : deserializeItem colors migrate p v = some d) :
    resolvedItemType colors d ≠ "" ∧ resolvedItemType colors d ≠ "topic" ∧
      resolvedItemType colors d ≠ "settings" := by
  have hc : (stampRemote p).cipher = false := hp
  simp only [deserializeItem, hc, Bool.false_eq_true, if_false] at h
  split at h
  · exact Option.noConfusion h
  · rename_i h1
    split at h
    · split at h
      · exact Option.noConfusion h
      · split at h
        · exact Option.noConfusion h
        · rename_i hban
          push_neg at hban
          have hd := Option.some.inj h
          split at hd <;> rw [← hd]
          · rw [resolvedItemType_set_synced]
            exact hban
          · exact hban
    · split at h
      · exact Option.noConfusion h
      · rename_i hban
        push_neg at hban
        have hd := Option.some.inj h
        split at hd <;> rw [← hd]
        · rw [resolvedItemType_set_synced]
          exact hban
        · exact hban

/-- C3: during a `fetch` run, a whole batch of declared type `"settings"`
is skipped before persisting (no `put` happens), and every element of the
list `processChunk` persists for any other batch is the merge of a
deserialized item that is either an opaque cipher item or has a resolved
type that is neither empty, `"topic"`, nor `"settings"` — plaintext items
with such resolved types were dropped by `deserializeItem`. -/
theorem claim_C3_no_banned_persisted (colors : List String)
    (migrate : Migrate) (merger : MergerOps)
    (locals : String → Option SItem) (chunk : SyncTransferItem) :
    (chunk.type = "settings" →
      Sync.processChunk colors migrate merger locals chunk = none) ∧
    (∀ l, Sync.processChunk colors migrate merger locals chunk = some l →
      ∀ x ∈ l, ∃ e d, e ∈ chunk.items ∧
        deserializeItem colors migrate e.payload e.v = some d ∧
        (e.payload.cipher = true ∨
          (resolvedItemType colors d ≠ "" ∧
            resolvedItemType colors d ≠ "topic" ∧
            resolvedItemType colors d ≠ "settings")) ∧
        x = (if chunk.type = "content" then
              merger.mergeContent d (locals d.id)
            else if chunk.type = "attachment" then
              merger.mergeItemAsync d (locals d.id) chunk.type
            else merger.mergeItemSync d (locals d.id) chunk.type)) := by
  constructor
  · intro h
    simp [Sync.processChunk, h]
  · intro l hl x hx
    by_cases hs : chunk.type = "settings"
    · simp [Sync.processChunk, hs] at hl
    · simp only [Sync.processChunk, if_neg hs, Option.some.injEq] at hl
      subst hl
      split at hx
      · rename_i hcont
        rw [List.mem_map] at hx
        obtain ⟨d, hd, rfl⟩ := hx
        rw [List.mem_filterMap] at hd
        obtain ⟨e, he, hde⟩ := hd
        refine ⟨e, d, he, hde, ?_, by simp [hcont]⟩
        by_cases hcip : e.payload.cipher = true
        · exact Or.inl hcip
        · exact Or.inr (deserializeItem_resolved_not_banned colors migrate
            e.payload e.v d (by simpa using hcip) hde)
      · split at hx
        · rename_i hcont hatt
          rw [List.mem_map] at hx
          obtain ⟨d, hd, rfl⟩ := hx
          rw [List.mem_filterMap] at hd
          obtain ⟨e, he, hde⟩ := hd
          refine ⟨e, d, he, hde, ?_, by simp [hcont, hatt]⟩
          by_cases hcip : e.payload.cipher = true
          · exact Or.inl hcip
          · exact Or.inr (deserializeItem_resolved_not_banned colors migrate
              e.payload e.v d (by simpa using hcip) hde)
        · rename_i hcont hatt
          rw [List.mem_map] at hx
          obtain ⟨d, hd, rfl⟩ := hx
          rw [List.mem_filterMap] at hd
          obtain ⟨e, he, hde⟩ := hd
          refine ⟨e, d, he, hde, ?_, by simp [hcont, hatt]⟩
          by_cases hcip : e.payload.cipher = true
          · exact Or.inl hcip
          · exact Or.inr (deserializeItem_resolved_not_banned colors migrate
              e.payload e.v d (by simpa using hcip) hde)

/-- A sample delivered `"settings"` batch. -/
def settingsBatch : SyncTransferItem :=
  { type := "settings", items := [{ id := "s1", v := 5, payload := noteItem }] }

/-- A merger behaviour keeping the remote item as-is. -/
def idMerger : MergerOps :=
  { mergeContent := fun d _ => some d,
    mergeItemAsync := fun d _ _ => some d,
    mergeItemSync := fun d _ _ => some d }

/-- A migration behaviour reporting "no change" on every item. -/
def unchangedMigrate : Migrate := fun i _ _ _ =>
  (MigrationResult.unchanged, i)

theorem claim_C3_no_banned_persisted_witness :
    Sync.processChunk [] unchangedMigrate idMerger (fun _ => none)
      settingsBatch = none ∧
    (∃ e d, e ∈ noteBatch.items ∧
      deserializeItem [] unchangedMigrate e.payload e.v = some d ∧
      (e.payload.cipher = true ∨
        (resolvedItemType [] d ≠ "" ∧ resolvedItemType [] d ≠ "topic" ∧
          resolvedItemType [] d ≠ "settings")) ∧
      some (stampRemote noteItem) =
        (if noteBatch.type = "content" then
          idMerger.mergeContent d ((fun _ => none : String → Option SItem)
            d.id)
        else if noteBatch.type = "attachment" then
          idMerger.mergeItemAsync d ((fun _ => none : String → Option SItem)
            d.id) noteBatch.type
        else idMerger.mergeItemSync d
          ((fun _ => none : String → Option SItem) d.id) noteBatch.type)) :=
  ⟨(claim_C3_no_banned_persisted [] unchangedMigrate idMerger (fun _ => none)
      settingsBatch).1 rfl,
    (claim_C3_no_banned_persisted [] unchangedMigrate idMerger (fun _ => none)
      noteBatch).2 [some (stampRemote noteItem)] (by decide)
      (some (stampRemote noteItem)) (by decide)⟩

/-- C4: `SyncManager.start` recovers automatically exactly when the inner
run raised a `HubException` whose extracted server text mentions the stale
email-confirmation messages (`"Please confirm your email "` or
`"Invalid token."`) while the account is actually confirmed — performing
exactly one forced token refresh and returning `false`; never more than
one refresh happens; every other failure is re-raised: wrapped in the
extracted server error text for hub exceptions, unmodified otherwise. -/
theorem claim_C4_start_recovery (emailConfirmed : Bool)
    (runResult : Option String) :
    (SyncManager.start emailConfirmed runResult).refreshCalls ≤ 1 ∧
    ((SyncManager.start emailConfirmed runResult).refreshCalls = 1 ∧
      (SyncManager.start emailConfirmed runResult).outcome =
        StartOutcome.ok false ↔
      ∃ msg, runResult = some msg ∧
        hasSubstr msg "HubException:" = true ∧
        (hasSubstr (extractHubError msg) "Please confirm your email " =
            true ∨
          hasSubstr (extractHubError msg) "Invalid token." = true) ∧
        emailConfirmed = true) ∧
    (∀ msg, runResult = some msg →
      hasSubstr msg "HubException:" = true →
      ¬((hasSubstr (extractHubError msg) "Please confirm your email " =
            true ∨
          hasSubstr (extractHubError msg) "Invalid token." = true) ∧
        emailConfirmed = true) →
      SyncManager.start emailConfirmed runResult =
        { refreshCalls := 0,
          outcome := StartOutcome.raised (extractHubError msg) }) ∧
    (∀ msg, runResult = some msg →
      hasSubstr msg "HubException:" = false →
      SyncManager.start emailConfirmed runResult =
        { refreshCalls := 0, outcome := StartOutcome.raised msg }) := by
  refine ⟨?_, ⟨?_, ?_⟩, ?_, ?_⟩
  · match runResult with
    | none => exact Nat.zero_le 1
    | some msg =>
      simp only [SyncManager.start]
      split
      · split
        · exact Nat.le_refl 1
        · exact Nat.zero_le 1
      · exact Nat.zero_le 1
  · intro h
    match runResult with
    | none => exact absurd h.2 (by simp [SyncManager.start])
    | some msg =>
      refine ⟨msg, rfl, ?_⟩
      by_cases hh : hasSubstr msg "HubException:" = true
      · by_cases hr : (hasSubstr (extractHubError msg)
            "Please confirm your email " = true ∨
            hasSubstr (extractHubError msg) "Invalid token." = true) ∧
            emailConfirmed = true
        · exact ⟨hh, hr.1, hr.2⟩
        · exact absurd h.1 (by simp [SyncManager.start, hh, hr])
      · exact absurd h.1
          (by simp [SyncManager.start, Bool.eq_false_iff.mpr hh])
  · rintro ⟨msg, rfl, hh, hr, hconf⟩
    simp [SyncManager.start, hh, hr, hconf]
  · rintro msg rfl hh hr
    simp [SyncManager.start, hh, hr]
  · rintro msg rfl hh
    simp [SyncManager.start, hh]

theorem claim_C4_start_recovery_witness :
    (SyncManager.start true
        (some "Error: HubException: Invalid token.")).refreshCalls = 1 ∧
      (SyncManager.start true
          (some "Error: HubException: Invalid token.")).outcome =
        StartOutcome.ok false :=
  (claim_C4_start_recovery true
    (some "Error: HubException: Invalid token.")).2.1.mpr
    ⟨"Error: HubException: Invalid token.", rfl, by decide,
      Or.inr (by decide), rfl⟩

/-- C5 counterexample: a connect attempt that never resolves (the 30 s
timeout fires) does make `checkConnection` fail, but the error delivered
to its caller is `"Could not connect to the Sync server. Please try
again."` — not the claimed `"Sync timed out in 30000ms."`, which is only
logged inside the catch block. -/
theorem claim_C5_timeout_message_counterexample :
    (Sync.checkConnection HubConnectionState.disconnected none).result ≠
      RunResult.failed (timeoutMessage 30000) ∧
    (Sync.checkConnection HubConnectionState.disconnected none).result =
      RunResult.failed
        "Could not connect to the Sync server. Please try again." := by
  constructor
  · intro h
    exact absurd (RunResult.failed.inj h) (by decide)
  · rfl

/-- C5 (amended): a connect attempt that does not resolve within the
30000 ms bound is rejected by the internal `promiseTimeout` race with the
error `"Sync timed out in 30000ms."` and no retry is attempted —
`checkConnection` makes exactly one `connection.start()` call when not
already connected; the timeout rejection is caught inside
`checkConnection`, which delivers `"Could not connect to the Sync server.
Please try again."` to its caller instead. -/
theorem claim_C5_timeout_amended (state : HubConnectionState)
    (startPromise : Option (Nat × RunResult)) :
    timeoutMessage 30000 = "Sync timed out in 30000ms." ∧
    (startPromise = none →
      promiseTimeout 30000 startPromise =
        RunResult.failed "Sync timed out in 30000ms.") ∧
    (∀ t r, startPromise = some (t, r) → 30000 ≤ t →
      promiseTimeout 30000 startPromise =
        RunResult.failed "Sync timed out in 30000ms.") ∧
    (state ≠ HubConnectionState.connected →
      (Sync.checkConnection state startPromise).startCalls = 1) ∧
    (state = HubConnectionState.connected →
      (Sync.checkConnection state startPromise).startCalls = 0) ∧
    (state ≠ HubConnectionState.connected →
      ∀ e, promiseTimeout 30000 startPromise = RunResult.failed e →
        (Sync.checkConnection state startPromise).result =
          RunResult.failed
            "Could not connect to the Sync server. Please try again.") := by
  have hmsg : timeoutMessage 30000 = "Sync timed out in 30000ms." := by
    decide
  refine ⟨hmsg, ?_, ?_, ?_, ?_, ?_⟩
  · rintro rfl
    rw [← hmsg]
    rfl
  · rintro t r rfl ht
    rw [← hmsg]
    simp [promiseTimeout, Nat.not_lt.mpr ht]
  · intro hne
    simp only [Sync.checkConnection, if_neg hne]
    split <;> rfl
  · rintro rfl
    rfl
  · intro hne e hfail
    simp only [Sync.checkConnection, if_neg hne, hfail]

theorem claim_C5_timeout_amended_witness :
    promiseTimeout 30000 none =
      RunResult.failed "Sync timed out in 30000ms." ∧
    (Sync.checkConnection HubConnectionState.disconnected none).startCalls =
      1 ∧
    (Sync.checkConnection HubConnectionState.disconnected none).result =
      RunResult.failed
        "Could not connect to the Sync server. Please try again." := by
  have h := claim_C5_timeout_amended HubConnectionState.disconnected none
  exact ⟨h.2.1 rfl, h.2.2.2.1 (by decide),
    h.2.2.2.2.2 (by decide) "Sync timed out in 30000ms." (h.2.1 rfl)⟩

/-- A migration behaviour that reports a change in the `"sync"` (wrapper)
pass and no change in the `"backup"` (inner-type) pass, leaving the item
itself untouched. -/
def wrapperChangedMigrate : Migrate := fun i _ _ ctx =>
  (if ctx = "sync" then MigrationResult.changed
   else MigrationResult.unchanged, i)

/-- C6 counterexample: for a trash-wrapped note whose main (wrapper)
migration pass reports a change while the inner-type pass reports no
change, the deserializer returns the item with `synced = true` — the
wrapper pass's change report is overwritten by the second pass, so the
claim "if any of the migration passes that ran reported a change, the
item has `synced=false`" fails. -/
theorem claim_C6_synced_counterexample :
    (wrapperChangedMigrate (stampRemote trashItem) 5
        (stampRemote trashItem).type "sync").1 = MigrationResult.changed ∧
    (wrapperChangedMigrate (stampRemote trashItem) 5 "note"
        "backup").1 = MigrationResult.unchanged ∧
    (deserializeItem [] wrapperChangedMigrate trashItem 5).map
        SItem.synced = some true := by
  decide

/-- C6 (amended): for a deserialized plaintext item, `synced` is cleared
exactly when the migration result still in scope at the end — that of the
inner-type pass when a trash item ran both passes, otherwise that of the
main pass — is a change report; a change reported by the trash wrapper
pass alone is overwritten and does not clear `synced` (absent a change,
the item keeps the `synced` flag the migrations left on it, which is
`true` unless a migration itself modified it). -/
theorem claim_C6_synced_amended (colors : List String) (migrate : Migrate)
    (item : SItem) (v : Nat) (d : SItem) (hcipher : item.cipher = false) :
    (∀ r1 i1,
      migrate (stampRemote item) v (stampRemote item).type "sync" =
        (r1, i1) →
      r1 ≠ MigrationResult.skip →
      ¬(i1.type = "trash" ∧ truthyOpt i1.itemType = true) →
      deserializeItem colors migrate item v = some d →
      d.synced =
        (if r1 = MigrationResult.changed then false else i1.synced)) ∧
    (∀ r1 i1 r2 i2,
      migrate (stampRemote item) v (stampRemote item).type "sync" =
        (r1, i1) →
      r1 ≠ MigrationResult.skip →
      i1.type = "trash" → truthyOpt i1.itemType = true →
      migrate i1 v (i1.itemType.getD "") "backup" = (r2, i2) →
      r2 ≠ MigrationResult.skip →
      deserializeItem colors migrate item v = some d →
      d.synced =
        (if r2 = MigrationResult.changed then false else i2.synced)) := by
  have hc : (stampRemote item).cipher = false := hcipher
  constructor
  · intro r1 i1 h1 hne hnt hsome
    simp only [deserializeItem, hc, Bool.false_eq_true, if_false, h1, hne,
      if_neg, hnt] at hsome
    split at hsome
    · exact Option.noConfusion hsome
    · have hd := Option.some.inj hsome
      cases r1 with
      | skip => exact absurd rfl hne
      | changed => rw [← hd]; simp [MigrationResult.truthy]
      | unchanged => rw [← hd]; simp [MigrationResult.truthy]
  · intro r1 i1 r2 i2 h1 hne ht htr h2 hne2 hsome
    simp only [deserializeItem, hc, Bool.false_eq_true, if_false, h1, hne,
      ht, htr, and_self, if_true, h2, hne2] at hsome
    split at hsome
    · exact Option.noConfusion hsome
    · have hd := Option.some.inj hsome
      cases r2 with
      | skip => exact absurd rfl hne2
      | changed => rw [← hd]; simp [MigrationResult.truthy]
      | unchanged => rw [← hd]; simp [MigrationResult.truthy]

theorem claim_C6_synced_amended_witness :
    (stampRemote trashItem).synced =
      (if MigrationResult.unchanged = MigrationResult.changed then false
       else (stampRemote trashItem).synced) :=
  (claim_C6_synced_amended [] wrapperChangedMigrate trashItem 5
      (stampRemote trashItem) rfl).2 MigrationResult.changed
    (stampRemote trashItem) MigrationResult.unchanged
    (stampRemote trashItem) rfl (by decide) rfl (by decide) rfl
    (by decide) (by decide)

/-- C7: the routing type resolved during deserialization turns a
`tag`-typed item whose lowercased title is a reserved color name into
`"color"`; a `trash`-typed item carrying a truthy inner type adopts that
inner type; every other item keeps its declared type. -/
theorem claim_C7_type_reclassification (colors : List String)
    (item : SItem) :
    (item.type = "tag" →
      colors.contains (jsToLowerCase item.title) = true →
      resolvedItemType colors item = "color") ∧
    (item.type = "trash" → truthyOpt item.itemType = true →
      resolvedItemType colors item = item.itemType.getD "") ∧
    (¬(item.type = "tag" ∧
        colors.contains (jsToLowerCase item.title) = true) →
      ¬(item.type = "trash" ∧ truthyOpt item.itemType = true) →
      resolvedItemType colors item = item.type) := by
  refine ⟨?_, ?_, ?_⟩
  · intro h1 h2
    unfold resolvedItemType
    rw [if_pos ⟨h1, h2⟩]
  · intro h1 h2
    have hsome : item.itemType.isSome = true := by
      cases hi : item.itemType with
      | none => rw [hi] at h2; exact absurd h2 (by simp [truthyOpt])
      | some s => rfl
    simp [resolvedItemType, h1, h2, hsome]
  · intro h1 h2
    have hnc : ¬(item.type = "trash" ∧ item.itemType.isSome = true ∧
        truthyOpt item.itemType = true) :=
      fun hcon => h2 ⟨hcon.1, hcon.2.2⟩
    unfold resolvedItemType
    rw [if_neg h1, if_neg hnc]

/-- A sample tag item whose title is a reserved color name (up to case). -/
def redTagItem : SItem :=
  { id := "g1", cipher := false, type := "tag", itemType := none,
    title := "Red", remote := false, synced := false }

theorem claim_C7_type_reclassification_witness :
    resolvedItemType ["red"] redTagItem = "color" ∧
    resolvedItemType [] trashItem = "note" ∧
    resolvedItemType [] noteItem = "note" :=
  ⟨(claim_C7_type_reclassification ["red"] redTagItem).1 rfl (by decide),
    (claim_C7_type_reclassification [] trashItem).2.1 rfl (by decide),
    (claim_C7_type_reclassification [] noteItem).2.2 (by decide)
      (by decide)⟩

/-- C8 counterexample: a fetch run whose `RequestFetch` invocation fails
propagates the error without reaching the trailing handler
deregistration, so the per-run `SendItems` handler is still registered
after the run — refuting "deregisters its per-run SendItems handler on
completion, whether the fetch succeeds or fails". -/
theorem claim_C8_handler_counterexample :
    (Sync.fetch true true (InvokeResult.failed "connection dropped")).2 =
      RunResult.failed "connection dropped" ∧
    handlerActive
        (Sync.fetch true true
          (InvokeResult.failed "connection dropped")).1 = true := by
  constructor <;> rfl

/-- C8 (amended): a fetch run that passes the connection and
encryption-key guards issues exactly one `RequestFetch` and clears any
stale handler before registering its own (first operation is an `off`); a
run stopped by those guards issues none; on a successful run the handler
is deregistered on completion; but when the `RequestFetch` invocation
fails, the handler stays registered until the next run's initial
deregistration. -/
theorem claim_C8_handler_amended (connOk keyOk : Bool)
    (req : InvokeResult) :
    (connOk = true → keyOk = true →
      (Sync.fetch connOk keyOk req).1.count FetchOp.invokeRequestFetch =
          1 ∧
        (Sync.fetch connOk keyOk req).1.head? =
          some FetchOp.offSendItems) ∧
    (connOk = false ∨ keyOk = false →
      (Sync.fetch connOk keyOk req).1 = []) ∧
    ((Sync.fetch connOk keyOk req).2 = RunResult.ok →
      handlerActive (Sync.fetch connOk keyOk req).1 = false) ∧
    (connOk = true → keyOk = true → ∀ e, req = InvokeResult.failed e →
      handlerActive (Sync.fetch connOk keyOk req).1 = true) := by
  refine ⟨?_, ?_, ?_, ?_⟩
  · rintro rfl rfl
    cases req with
    | failed e => exact ⟨rfl, rfl⟩
    | ok resp =>
      by_cases hv : vaultKeyValid resp = true <;>
        simp [Sync.fetch, hv]
  · rintro (rfl | rfl)
    · rfl
    · cases connOk <;> rfl
  · cases connOk with
    | false => exact fun h => RunResult.noConfusion h
    | true =>
      cases keyOk with
      | false => exact fun _ => rfl
      | true =>
        cases req with
        | failed e => exact fun h => RunResult.noConfusion h
        | ok resp =>
          by_cases hv : vaultKeyValid resp = true <;>
            intro _ <;> simp [Sync.fetch, hv] <;> rfl
  · rintro rfl rfl e rfl
    rfl

theorem claim_C8_handler_amended_witness :
    (Sync.fetch true true
        (InvokeResult.ok { vaultKey := none })).1.count
      FetchOp.invokeRequestFetch = 1 ∧
    (Sync.fetch true true (InvokeResult.ok { vaultKey := none })).1.head? =
      some FetchOp.offSendItems ∧
    handlerActive
      (Sync.fetch true true (InvokeResult.ok { vaultKey := none })).1 =
      false :=
  ⟨((claim_C8_handler_amended true true
      (InvokeResult.ok { vaultKey := none })).1 rfl rfl).1,
    ((claim_C8_handler_amended true true
      (InvokeResult.ok { vaultKey := none })).1 rfl rfl).2,
    (claim_C8_handler_amended true true
      (InvokeResult.ok { vaultKey := none })).2.2.1 rfl⟩

/-- C9: an incoming item carrying a truthy `cipher` marker bypasses
migration (no migration call is made) and all type-based filtering: it is
returned exactly as stamped `remote = true`, `synced = true`, whatever its
declared type — so the empty/`topic`/`settings` drop rule and the
tag-to-color reclassification only ever apply to plaintext-structured
items. -/
theorem claim_C9_cipher_bypass (colors : List String) (migrate : Migrate)
    (item : SItem) (v : Nat) (h : item.cipher = true) :
    deserializeItem colors migrate item v = some (stampRemote item) ∧
    (deserializeItemT colors migrate item v).2 = [] ∧
    (stampRemote item).remote = true ∧ (stampRemote item).synced = true ∧
    (stampRemote item).type = item.type := by
  have hc : (stampRemote item).cipher = true := h
  exact ⟨by simp [deserializeItem, hc], by simp [deserializeItemT, hc],
    rfl, rfl, rfl⟩

/-- A sample vault-encrypted payload whose declared type is `"settings"`
(a type the plaintext drop rule would reject). -/
def cipherSettingsItem : SItem :=
  { id := "c1", cipher := true, type := "settings", itemType := none,
    title := "", remote := false, synced := false }

theorem claim_C9_cipher_bypass_witness :
    deserializeItem [] unchangedMigrate cipherSettingsItem 5 =
      some (stampRemote cipherSettingsItem) ∧
    (deserializeItemT [] unchangedMigrate cipherSettingsItem 5).2 = [] ∧
    (stampRemote cipherSettingsItem).remote = true ∧
    (stampRemote cipherSettingsItem).synced = true ∧
    (stampRemote cipherSettingsItem).type = cipherSettingsItem.type :=
  claim_C9_cipher_bypass [] unchangedMigrate cipherSettingsItem 5 rfl

theorem downloadCounts_getLast (count : Nat) (c : SyncTransferItem)
    (rest : List SyncTransferItem) :
    (Sync.downloadCounts count (c :: rest)).getLast? =
      some (count + Sync.totalDelivered (c :: rest)) := by
  induction rest generalizing count c with
  | nil => simp [Sync.downloadCounts, Sync.totalDelivered]
  | cons r rs ih =>
    have e1 : Sync.downloadCounts count (c :: r :: rs) =
        (count + c.items.length) ::
          Sync.downloadCounts (count + c.items.length) (r :: rs) := rfl
    have e2 : Sync.downloadCounts (count + c.items.length) (r :: rs) =
        (count + c.items.length + r.items.length) ::
          Sync.downloadCounts
            (count + c.items.length + r.items.length) rs := rfl
    rw [e1, e2, List.getLast?_cons_cons, ← e2, ih]
    simp [Sync.totalDelivered, Nat.add_assoc]

theorem persistedOfChunk_length_le (colors : List String)
    (migrate : Migrate) (merger : MergerOps)
    (locals : String → Option SItem) (c : SyncTransferItem) :
    (Sync.persistedOfChunk colors migrate merger locals c).length ≤
      c.items.length := by
  unfold Sync.persistedOfChunk
  by_cases hs : c.type = "settings"
  · simp [Sync.processChunk, hs]
  · simp only [Sync.processChunk, if_neg hs]
    split
    · exact le_trans (List.reduceOption_length_le _)
        (by rw [List.length_map]; exact List.length_filterMap_le _ _)
    · split
      · exact le_trans (List.reduceOption_length_le _)
          (by rw [List.length_map]; exact List.length_filterMap_le _ _)
      · exact le_trans (List.reduceOption_length_le _)
          (by rw [List.length_map]; exact List.length_filterMap_le _ _)

/-- C10: the cumulative download-progress count reported after the last
fetch batch equals the total number of delivered items — each batch
contributes its full length, including `settings` batches that are never
persisted and items discarded by deserialization filtering — while the
number of items actually persisted never exceeds it and, e.g. for a
delivered one-item `settings` batch, is strictly below it. -/
theorem claim_C10_progress_overcount (colors : List String)
    (migrate : Migrate) (merger : MergerOps)
    (locals : String → Option SItem) (chunks : List SyncTransferItem) :
    (chunks ≠ [] → (Sync.downloadCounts 0 chunks).getLast? =
      some (Sync.totalDelivered chunks)) ∧
    Sync.persistedTotal colors migrate merger locals chunks ≤
      Sync.totalDelivered chunks ∧
    (Sync.totalDelivered [settingsBatch] = 1 ∧
      Sync.persistedTotal colors migrate merger locals [settingsBatch] =
        0) := by
  refine ⟨?_, ?_, rfl, ?_⟩
  · intro h
    match chunks with
    | [] => exact absurd rfl h
    | c :: rest =>
      rw [downloadCounts_getLast, Nat.zero_add]
  · induction chunks with
    | nil => exact Nat.le_refl 0
    | cons c rest ih =>
      simp only [Sync.persistedTotal, Sync.totalDelivered, List.map_cons,
        List.sum_cons] at ih ⊢
      exact Nat.add_le_add
        (persistedOfChunk_length_le colors migrate merger locals c) ih
  · simp [Sync.persistedTotal, Sync.persistedOfChunk, Sync.processChunk,
      settingsBatch]

theorem claim_C10_progress_overcount_witness :
    (Sync.downloadCounts 0 [settingsBatch]).getLast? = some 1 ∧
    Sync.persistedTotal [] unchangedMigrate idMerger (fun _ => none)
      [settingsBatch] = 0 := by
  have h := claim_C10_progress_overcount [] unchangedMigrate idMerger
    (fun _ => none) [settingsBatch]
  exact ⟨by rw [h.1 (by decide), h.2.2.1], h.2.2.2⟩
